import Mathlib

/-!
Shallow embedding of the `LedEngine` class (`LedEngine.h` / `LedEngine.cpp`).

Modelling conventions:
* `float`/`double` quantities are modelled as exact rationals `ℚ`; the square
  root on doubles is abstracted as an explicit function parameter
  `sqrtm : ℚ → ℚ` threaded through every operation that reaches the
  chromaticity solver `findCoefficient_`.
* The `uint16_t` member `T_` is a natural number; the C assignment `T_ = -1`
  is modelled by reduction of `-1` modulo `2 ^ 16` (`u16`).
* The C cast `static_cast<int>` truncates toward zero; it is only applied to
  `raw * pwmRange + 0.5` with `raw` already clamped into `[0, 1]`, so the
  operand is nonnegative and truncation coincides with the floor used below
  (`cTrunc` keeps the toward-zero semantics explicitly).
* PWM output (`analogWrite` on the red/green/blue pins) is modelled as an
  explicit list of (channel, duty-cycle) writes returned next to the updated
  engine state.  The warm/cold auxiliary pins are configured but never driven
  by the algorithmic core and are not part of the claims.
-/

namespace LedEngine

/-- Data structure for CIE 1976 Luv coordinates (struct `Luv`). -/
structure Luv where
  L : ℚ
  u : ℚ
  v : ℚ
deriving DecidableEq

/-- Data structure for RGB color (struct `RGB`). -/
structure RGB where
  R : ℚ
  G : ℚ
  B : ℚ
deriving DecidableEq

/-- A 3-coefficient rational-fit record (`float fit[3]`), read by
`findCoefficient_` as `p1 = fit[0]`, `p2 = fit[1]`, `q1 = fit[2]`. -/
structure Fit where
  p1 : ℚ
  p2 : ℚ
  q1 : ℚ
deriving DecidableEq

/-- The three algorithmically driven output channels. -/
inductive Chan where
  | red
  | green
  | blue
deriving DecidableEq

/-- The mutable state of a `LedEngine` object: configuration, cached color
representations and calibration fields, with the default member initializers
of `LedEngine.h`. -/
structure EngineState where
  pwmRange : ℕ
  onOff : Bool
  raw : RGB
  luv : Luv
  T : ℕ
  redUv : Luv
  greenUv : Luv
  blueUv : Luv
  redLum : ℚ
  greenLum : ℚ
  blueLum : ℚ
  maxLum : ℚ
  redToGreenFit : Fit
  greenToBlueFit : Fit
  blueToRedFit : Fit
deriving DecidableEq

/-- Value of an `int` expression assigned into a `uint16_t` field:
reduction modulo `2 ^ 16`. -/
def u16 (i : ℤ) : ℕ := (i % 65536).toNat

/-- Sequential clamping of a component into `[0, 1]`
(`if (x < 0) x = 0; if (x > 1) x = 1;`). -/
def clamp01 (q : ℚ) : ℚ := if q < 0 then 0 else if q > 1 then 1 else q

/-- C `static_cast<int>` on a rational: truncation toward zero. -/
def cTrunc (q : ℚ) : ℤ := if q < 0 then -⌊-q⌋ else ⌊q⌋

/-- Integer duty cycle produced by `setRaw` for one component:
clamp into `[0, 1]`, then `static_cast<int>(x * pwmRange_ + 0.5)`. -/
def pwmOf (range : ℕ) (x : ℚ) : ℤ := cTrunc (clamp01 x * (range : ℚ) + 0.5)

/-- The de-quantized value stored back into `raw_` by `setRaw`:
`static_cast<float>(pwm) / pwmRange_`. -/
def quant (range : ℕ) (x : ℚ) : ℚ := (pwmOf range x : ℚ) / (range : ℚ)

/-- `LedEngine::getOnOff`. -/
def getOnOff (st : EngineState) : Bool := st.onOff

/-- `LedEngine::getRaw`. -/
def getRaw (st : EngineState) : RGB := st.raw

/-- `LedEngine::getCie1976Ucs`. -/
def getCie1976Ucs (st : EngineState) : Luv := st.luv

/-- `LedEngine::getColorTemperature`. -/
def getColorTemperature (st : EngineState) : ℕ := st.T

/-- `LedEngine::setRaw`: clamp each component into `[0, 1]`, quantize to the
integer PWM range, write the duty cycles if the light is on, store back the
de-quantized values, and reset `luv_` and `T_` to their unset sentinels. -/
def setRaw (rawIn : RGB) (st : EngineState) : EngineState × List (Chan × ℤ) :=
  ({ st with
      raw := { R := quant st.pwmRange rawIn.R
               G := quant st.pwmRange rawIn.G
               B := quant st.pwmRange rawIn.B }
      luv := { L := -1, u := -1, v := -1 }
      T := u16 (-1) },
   if st.onOff then
     [(Chan.red, pwmOf st.pwmRange rawIn.R),
      (Chan.green, pwmOf st.pwmRange rawIn.G),
      (Chan.blue, pwmOf st.pwmRange rawIn.B)]
   else [])

/-- `LedEngine::setOnOff`: store the flag; when turning on, re-project the
cached raw state through `setRaw(getRaw())`; when turning off, write zero
duty cycles without touching `raw_`. -/
def setOnOff (onOff : Bool) (st : EngineState) : EngineState × List (Chan × ℤ) :=
  let st1 := { st with onOff := onOff }
  if onOff then setRaw (getRaw st1) st1
  else (st1, [(Chan.red, 0), (Chan.green, 0), (Chan.blue, 0)])

/-- `LedEngine::findCoefficient_`: the chromaticity solver for one channel.
`PT` is the target point, `P0` the primary being solved, `P1` its
counter-clockwise neighbor, `P2` the remaining primary; `rightHandFit` and
`leftHandFit` are the rational-fit records for the `P0`-`P1` and `P1`-`P2`
edges.  The closed-form expressions are transcribed verbatim from the source;
`sqrt` is the abstracted square root `sqrtm`. -/
def findCoefficient_ (sqrtm : ℚ → ℚ) (PT P0 P1 P2 : Luv)
    (rightHandFit leftHandFit : Fit) : ℚ :=
  let PTu := PT.u
  let PTv := PT.v
  let P0u := P0.u
  let P0v := P0.v
  let P1u := P1.u
  let P1v := P1.v
  let P2u := P2.u
  let P2v := P2.v
  let Rp1 := rightHandFit.p1
  let Rp2 := rightHandFit.p2
  let Rq1 := rightHandFit.q1
  let Lp1 := leftHandFit.p1
  let Lp2 := leftHandFit.p2
  let Lq1 := leftHandFit.q1
  let dR : ℚ :=
    if Lp1 < 0 then
      (sqrtm ((P0u*P0u)*(P1v*P1v) + (P1u*P1u)*(P0v*P0v) + (P0u*P0u)*(PTv*PTv) + (P0v*P0v)*(PTu*PTu) + (P1u*P1u)*(PTv*PTv) + (P1v*P1v)*(PTu*PTu) - Lp1*(P0u*P0u)*(P1v*P1v)*2.0 - Lp1*(P1u*P1u)*(P0v*P0v)*2.0 - Lp2*(P0u*P0u)*(P1v*P1v)*2.0 - Lp2*(P1u*P1u)*(P0v*P0v)*2.0 + Lq1*(P0u*P0u)*(P1v*P1v)*2.0 + Lq1*(P1u*P1u)*(P0v*P0v)*2.0 - Lp1*(P0u*P0u)*(PTv*PTv)*2.0 - Lp1*(P0v*P0v)*(PTu*PTu)*2.0 - Lp2*(P0u*P0u)*(PTv*PTv)*4.0 - Lp2*(P0v*P0v)*(PTu*PTu)*4.0 + Lq1*(P0u*P0u)*(PTv*PTv)*2.0 + Lq1*(P0v*P0v)*(PTu*PTu)*2.0 + Lq1*(P1u*P1u)*(PTv*PTv)*2.0 + Lq1*(P1v*P1v)*(PTu*PTu)*2.0 + (Lp1*Lp1)*(P0u*P0u)*(P1v*P1v) + (Lp1*Lp1)*(P1u*P1u)*(P0v*P0v) + (Lp2*Lp2)*(P0u*P0u)*(P1v*P1v) + (Lp2*Lp2)*(P1u*P1u)*(P0v*P0v) + (Lp1*Lp1)*(P1u*P1u)*(P2v*P2v) + (Lp1*Lp1)*(P2u*P2u)*(P1v*P1v) + (Lp2*Lp2)*(P0u*P0u)*(P2v*P2v) + (Lp2*Lp2)*(P2u*P2u)*(P0v*P0v) + (Lp2*Lp2)*(P1u*P1u)*(P2v*P2v) + (Lp2*Lp2)*(P2u*P2u)*(P1v*P1v) + (Lq1*Lq1)*(P0u*P0u)*(P1v*P1v) + (Lq1*Lq1)*(P1u*P1u)*(P0v*P0v) + (Lp1*Lp1)*(P0u*P0u)*(PTv*PTv) + (Lp1*Lp1)*(P0v*P0v)*(PTu*PTu) + (Lp1*Lp1)*(P2u*P2u)*(PTv*PTv) + (Lp1*Lp1)*(P2v*P2v)*(PTu*PTu) + (Lq1*Lq1)*(P0u*P0u)*(PTv*PTv) + (Lq1*Lq1)*(P0v*P0v)*(PTu*PTu) + (Lq1*Lq1)*(P1u*P1u)*(PTv*PTv) + (Lq1*Lq1)*(P1v*P1v)*(PTu*PTu) - P0u*P1u*(PTv*PTv)*2.0 - P0u*(P1v*P1v)*PTu*2.0 - P1u*(P0v*P0v)*PTu*2.0 - P0v*P1v*(PTu*PTu)*2.0 - (P0u*P0u)*P1v*PTv*2.0 - (P1u*P1u)*P0v*PTv*2.0 + Lp1*Lp2*(P0u*P0u)*(P1v*P1v)*2.0 + Lp1*Lp2*(P1u*P1u)*(P0v*P0v)*2.0 + Lp1*Lp2*(P1u*P1u)*(P2v*P2v)*2.0 + Lp1*Lp2*(P2u*P2u)*(P1v*P1v)*2.0 - Lp1*Lq1*(P0u*P0u)*(P1v*P1v)*2.0 - Lp1*Lq1*(P1u*P1u)*(P0v*P0v)*2.0 - Lp2*Lq1*(P0u*P0u)*(P1v*P1v)*2.0 - Lp2*Lq1*(P1u*P1u)*(P0v*P0v)*2.0 + Lp1*Lq1*(P0u*P0u)*(PTv*PTv)*2.0 + Lp1*Lq1*(P0v*P0v)*(PTu*PTu)*2.0 - (Lp1*Lp1)*P0u*P2u*(P1v*P1v)*2.0 - (Lp2*Lp2)*P0u*P1u*(P2v*P2v)*2.0 - (Lp2*Lp2)*P0u*P2u*(P1v*P1v)*2.0 - (Lp2*Lp2)*P1u*P2u*(P0v*P0v)*2.0 - (Lp1*Lp1)*(P1u*P1u)*P0v*P2v*2.0 - (Lp2*Lp2)*(P0u*P0u)*P1v*P2v*2.0 - (Lp2*Lp2)*(P1u*P1u)*P0v*P2v*2.0 - (Lp2*Lp2)*(P2u*P2u)*P0v*P1v*2.0 - (Lp1*Lp1)*P1u*(P0v*P0v)*PTu*2.0 - (Lp1*Lp1)*P0u*P2u*(PTv*PTv)*2.0 - (Lp1*Lp1)*P1u*(P2v*P2v)*PTu*2.0 - (Lp1*Lp1)*(P0u*P0u)*P1v*PTv*2.0 - (Lp1*Lp1)*P0v*P2v*(PTu*PTu)*2.0 - (Lp1*Lp1)*(P2u*P2u)*P1v*PTv*2.0 - (Lq1*Lq1)*P0u*P1u*(PTv*PTv)*2.0 - (Lq1*Lq1)*P0u*(P1v*P1v)*PTu*2.0 - (Lq1*Lq1)*P1u*(P0v*P0v)*PTu*2.0 - (Lq1*Lq1)*P0v*P1v*(PTu*PTu)*2.0 - (Lq1*Lq1)*(P0u*P0u)*P1v*PTv*2.0 - (Lq1*Lq1)*(P1u*P1u)*P0v*PTv*2.0 - P0u*P1u*P0v*P1v*2.0 + P0u*P1u*P0v*PTv*2.0 + P0u*P0v*P1v*PTu*2.0 + P0u*P1u*P1v*PTv*2.0 + P1u*P0v*P1v*PTu*2.0 - P0u*P0v*PTu*PTv*2.0 + P0u*P1v*PTu*PTv*2.0 + P1u*P0v*PTu*PTv*2.0 - P1u*P1v*PTu*PTv*2.0 + Lp1*P0u*P2u*(P1v*P1v)*2.0 + Lp2*P0u*P2u*(P1v*P1v)*2.0 - Lp2*P1u*P2u*(P0v*P0v)*2.0 + Lp1*(P1u*P1u)*P0v*P2v*2.0 - Lp2*(P0u*P0u)*P1v*P2v*2.0 + Lp2*(P1u*P1u)*P0v*P2v*2.0 + Lp1*P0u*P1u*(PTv*PTv)*2.0 + Lp1*P0u*(P1v*P1v)*PTu*2.0 + Lp1*P1u*(P0v*P0v)*PTu*4.0 + Lp1*P0u*P2u*(PTv*PTv)*2.0 + Lp2*P0u*P1u*(PTv*PTv)*4.0 + Lp2*P0u*(P1v*P1v)*PTu*2.0 + Lp2*P1u*(P0v*P0v)*PTu*6.0 - Lp1*P1u*P2u*(PTv*PTv)*2.0 - Lp1*P2u*(P1v*P1v)*PTu*2.0 + Lp2*P0u*P2u*(PTv*PTv)*4.0 + Lp2*P2u*(P0v*P0v)*PTu*2.0 - Lp2*P1u*P2u*(PTv*PTv)*4.0 - Lp2*P2u*(P1v*P1v)*PTu*2.0 + Lp1*P0v*P1v*(PTu*PTu)*2.0 + Lp1*(P0u*P0u)*P1v*PTv*4.0 + Lp1*(P1u*P1u)*P0v*PTv*2.0 + Lp1*P0v*P2v*(PTu*PTu)*2.0 + Lp2*P0v*P1v*(PTu*PTu)*4.0 + Lp2*(P0u*P0u)*P1v*PTv*6.0 + Lp2*(P1u*P1u)*P0v*PTv*2.0 - Lp1*P1v*P2v*(PTu*PTu)*2.0 - Lp1*(P1u*P1u)*P2v*PTv*2.0 + Lp2*P0v*P2v*(PTu*PTu)*4.0 + Lp2*(P0u*P0u)*P2v*PTv*2.0 - Lp2*P1v*P2v*(PTu*PTu)*4.0 - Lp2*(P1u*P1u)*P2v*PTv*2.0 - Lq1*P0u*P1u*(PTv*PTv)*4.0 - Lq1*P0u*(P1v*P1v)*PTu*4.0 - Lq1*P1u*(P0v*P0v)*PTu*4.0 - Lq1*P0v*P1v*(PTu*PTu)*4.0 - Lq1*(P0u*P0u)*P1v*PTv*4.0 - Lq1*(P1u*P1u)*P0v*PTv*4.0 - Lp1*Lp2*P0u*P1u*(P2v*P2v)*2.0 - Lp1*Lp2*P0u*P2u*(P1v*P1v)*4.0 - Lp1*Lp2*P1u*P2u*(P0v*P0v)*2.0 - Lp1*Lp2*(P0u*P0u)*P1v*P2v*2.0 - Lp1*Lp2*(P1u*P1u)*P0v*P2v*4.0 - Lp1*Lp2*(P2u*P2u)*P0v*P1v*2.0 + Lp1*Lq1*P0u*P2u*(P1v*P1v)*2.0 + Lp1*Lq1*P1u*P2u*(P0v*P0v)*4.0 + Lp2*Lq1*P0u*P2u*(P1v*P1v)*2.0 + Lp2*Lq1*P1u*P2u*(P0v*P0v)*2.0 + Lp1*Lq1*(P0u*P0u)*P1v*P2v*4.0 + Lp1*Lq1*(P1u*P1u)*P0v*P2v*2.0 + Lp2*Lq1*(P0u*P0u)*P1v*P2v*2.0 + Lp2*Lq1*(P1u*P1u)*P0v*P2v*2.0 - Lp1*Lp2*P1u*(P0v*P0v)*PTu*2.0 + Lp1*Lp2*P0u*(P2v*P2v)*PTu*2.0 + Lp1*Lp2*P2u*(P0v*P0v)*PTu*2.0 - Lp1*Lp2*P1u*(P2v*P2v)*PTu*2.0 - Lp1*Lp2*(P0u*P0u)*P1v*PTv*2.0 + Lp1*Lp2*(P0u*P0u)*P2v*PTv*2.0 + Lp1*Lp2*(P2u*P2u)*P0v*PTv*2.0 - Lp1*Lp2*(P2u*P2u)*P1v*PTv*2.0 - Lp1*Lq1*P0u*P1u*(PTv*PTv)*2.0 + Lp1*Lq1*P0u*(P1v*P1v)*PTu*2.0 - Lp1*Lq1*P0u*P2u*(PTv*PTv)*2.0 - Lp1*Lq1*P2u*(P0v*P0v)*PTu*4.0 + Lp2*Lq1*P0u*(P1v*P1v)*PTu*2.0 + Lp2*Lq1*P1u*(P0v*P0v)*PTu*2.0 + Lp1*Lq1*P1u*P2u*(PTv*PTv)*2.0 - Lp1*Lq1*P2u*(P1v*P1v)*PTu*2.0 - Lp2*Lq1*P2u*(P0v*P0v)*PTu*2.0 - Lp2*Lq1*P2u*(P1v*P1v)*PTu*2.0 - Lp1*Lq1*P0v*P1v*(PTu*PTu)*2.0 + Lp1*Lq1*(P1u*P1u)*P0v*PTv*2.0 - Lp1*Lq1*P0v*P2v*(PTu*PTu)*2.0 - Lp1*Lq1*(P0u*P0u)*P2v*PTv*4.0 + Lp2*Lq1*(P0u*P0u)*P1v*PTv*2.0 + Lp2*Lq1*(P1u*P1u)*P0v*PTv*2.0 + Lp1*Lq1*P1v*P2v*(PTu*PTu)*2.0 - Lp1*Lq1*(P1u*P1u)*P2v*PTv*2.0 - Lp2*Lq1*(P0u*P0u)*P2v*PTv*2.0 - Lp2*Lq1*(P1u*P1u)*P2v*PTv*2.0 - (Lp1*Lp1)*P0u*P1u*P0v*P1v*2.0 - (Lp2*Lp2)*P0u*P1u*P0v*P1v*2.0 + (Lp1*Lp1)*P0u*P1u*P1v*P2v*2.0 + (Lp1*Lp1)*P1u*P2u*P0v*P1v*2.0 + (Lp2*Lp2)*P0u*P1u*P0v*P2v*2.0 + (Lp2*Lp2)*P0u*P2u*P0v*P1v*2.0 + (Lp2*Lp2)*P0u*P1u*P1v*P2v*2.0 - (Lp2*Lp2)*P0u*P2u*P0v*P2v*2.0 + (Lp2*Lp2)*P1u*P2u*P0v*P1v*2.0 - (Lp1*Lp1)*P1u*P2u*P1v*P2v*2.0 + (Lp2*Lp2)*P0u*P2u*P1v*P2v*2.0 + (Lp2*Lp2)*P1u*P2u*P0v*P2v*2.0 - (Lp2*Lp2)*P1u*P2u*P1v*P2v*2.0 - (Lq1*Lq1)*P0u*P1u*P0v*P1v*2.0 + (Lp1*Lp1)*P0u*P1u*P0v*PTv*2.0 + (Lp1*Lp1)*P0u*P0v*P1v*PTu*2.0 - (Lp1*Lp1)*P0u*P1u*P2v*PTv*2.0 + (Lp1*Lp1)*P0u*P2u*P1v*PTv*4.0 - (Lp1*Lp1)*P0u*P1v*P2v*PTu*2.0 - (Lp1*Lp1)*P1u*P2u*P0v*PTv*2.0 + (Lp1*Lp1)*P1u*P0v*P2v*PTu*4.0 - (Lp1*Lp1)*P2u*P0v*P1v*PTu*2.0 + (Lp1*Lp1)*P1u*P2u*P2v*PTv*2.0 + (Lp1*Lp1)*P2u*P1v*P2v*PTu*2.0 + (Lq1*Lq1)*P0u*P1u*P0v*PTv*2.0 + (Lq1*Lq1)*P0u*P0v*P1v*PTu*2.0 + (Lq1*Lq1)*P0u*P1u*P1v*PTv*2.0 + (Lq1*Lq1)*P1u*P0v*P1v*PTu*2.0 - (Lp1*Lp1)*P0u*P0v*PTu*PTv*2.0 + (Lp1*Lp1)*P0u*P2v*PTu*PTv*2.0 + (Lp1*Lp1)*P2u*P0v*PTu*PTv*2.0 - (Lp1*Lp1)*P2u*P2v*PTu*PTv*2.0 - (Lq1*Lq1)*P0u*P0v*PTu*PTv*2.0 + (Lq1*Lq1)*P0u*P1v*PTu*PTv*2.0 + (Lq1*Lq1)*P1u*P0v*PTu*PTv*2.0 - (Lq1*Lq1)*P1u*P1v*PTu*PTv*2.0 + Lp1*P0u*P1u*P0v*P1v*4.0 + Lp2*P0u*P1u*P0v*P1v*4.0 - Lp1*P0u*P1u*P1v*P2v*2.0 - Lp1*P1u*P2u*P0v*P1v*2.0 + Lp2*P0u*P1u*P0v*P2v*2.0 + Lp2*P0u*P2u*P0v*P1v*2.0 - Lp2*P0u*P1u*P1v*P2v*2.0 - Lp2*P1u*P2u*P0v*P1v*2.0 - Lq1*P0u*P1u*P0v*P1v*4.0 - Lp1*P0u*P1u*P0v*PTv*4.0 - Lp1*P0u*P0v*P1v*PTu*4.0 - Lp1*P0u*P1u*P1v*PTv*2.0 - Lp1*P1u*P0v*P1v*PTu*2.0 - Lp2*P0u*P1u*P0v*PTv*6.0 - Lp2*P0u*P0v*P1v*PTu*6.0 + Lp1*P0u*P1u*P2v*PTv*2.0 - Lp1*P0u*P2u*P1v*PTv*4.0 + Lp1*P0u*P1v*P2v*PTu*2.0 + Lp1*P1u*P2u*P0v*PTv*2.0 - Lp1*P1u*P0v*P2v*PTu*4.0 + Lp1*P2u*P0v*P1v*PTu*2.0 - Lp2*P0u*P1u*P1v*PTv*2.0 - Lp2*P0u*P2u*P0v*PTv*2.0 - Lp2*P0u*P0v*P2v*PTu*2.0 - Lp2*P1u*P0v*P1v*PTu*2.0 + Lp1*P1u*P2u*P1v*PTv*2.0 + Lp1*P1u*P1v*P2v*PTu*2.0 - Lp2*P0u*P2u*P1v*PTv*6.0 + Lp2*P0u*P1v*P2v*PTu*6.0 + Lp2*P1u*P2u*P0v*PTv*6.0 - Lp2*P1u*P0v*P2v*PTu*6.0 + Lp2*P1u*P2u*P1v*PTv*2.0 + Lp2*P1u*P1v*P2v*PTu*2.0 + Lq1*P0u*P1u*P0v*PTv*4.0 + Lq1*P0u*P0v*P1v*PTu*4.0 + Lq1*P0u*P1u*P1v*PTv*4.0 + Lq1*P1u*P0v*P1v*PTu*4.0 + Lp1*P0u*P0v*PTu*PTv*4.0 - Lp1*P0u*P1v*PTu*PTv*2.0 - Lp1*P1u*P0v*PTu*PTv*2.0 + Lp2*P0u*P0v*PTu*PTv*8.0 - Lp1*P0u*P2v*PTu*PTv*2.0 - Lp1*P2u*P0v*PTu*PTv*2.0 - Lp2*P0u*P1v*PTu*PTv*4.0 - Lp2*P1u*P0v*PTu*PTv*4.0 + Lp1*P1u*P2v*PTu*PTv*2.0 + Lp1*P2u*P1v*PTu*PTv*2.0 - Lp2*P0u*P2v*PTu*PTv*4.0 - Lp2*P2u*P0v*PTu*PTv*4.0 + Lp2*P1u*P2v*PTu*PTv*4.0 + Lp2*P2u*P1v*PTu*PTv*4.0 - Lq1*P0u*P0v*PTu*PTv*4.0 + Lq1*P0u*P1v*PTu*PTv*4.0 + Lq1*P1u*P0v*PTu*PTv*4.0 - Lq1*P1u*P1v*PTu*PTv*4.0 - Lp1*Lp2*P0u*P1u*P0v*P1v*4.0 + Lp1*Lp2*P0u*P1u*P0v*P2v*2.0 + Lp1*Lp2*P0u*P2u*P0v*P1v*2.0 + Lp1*Lp2*P0u*P1u*P1v*P2v*4.0 + Lp1*Lp2*P1u*P2u*P0v*P1v*4.0 + Lp1*Lp2*P0u*P2u*P1v*P2v*2.0 + Lp1*Lp2*P1u*P2u*P0v*P2v*2.0 - Lp1*Lp2*P1u*P2u*P1v*P2v*4.0 + Lp1*Lq1*P0u*P1u*P0v*P1v*4.0 - Lp1*Lq1*P0u*P1u*P0v*P2v*4.0 - Lp1*Lq1*P0u*P2u*P0v*P1v*4.0 + Lp2*Lq1*P0u*P1u*P0v*P1v*4.0 - Lp1*Lq1*P0u*P1u*P1v*P2v*2.0 - Lp1*Lq1*P1u*P2u*P0v*P1v*2.0 - Lp2*Lq1*P0u*P1u*P0v*P2v*2.0 - Lp2*Lq1*P0u*P2u*P0v*P1v*2.0 - Lp2*Lq1*P0u*P1u*P1v*P2v*2.0 - Lp2*Lq1*P1u*P2u*P0v*P1v*2.0 + Lp1*Lp2*P0u*P1u*P0v*PTv*2.0 + Lp1*Lp2*P0u*P0v*P1v*PTu*2.0 - Lp1*Lp2*P0u*P2u*P0v*PTv*2.0 - Lp1*Lp2*P0u*P0v*P2v*PTu*2.0 - Lp1*Lp2*P0u*P1u*P2v*PTv*2.0 + Lp1*Lp2*P0u*P2u*P1v*PTv*4.0 - Lp1*Lp2*P0u*P1v*P2v*PTu*2.0 - Lp1*Lp2*P1u*P2u*P0v*PTv*2.0 + Lp1*Lp2*P1u*P0v*P2v*PTu*4.0 - Lp1*Lp2*P2u*P0v*P1v*PTu*2.0 - Lp1*Lp2*P0u*P2u*P2v*PTv*2.0 - Lp1*Lp2*P2u*P0v*P2v*PTu*2.0 + Lp1*Lp2*P1u*P2u*P2v*PTv*2.0 + Lp1*Lp2*P2u*P1v*P2v*PTu*2.0 - Lp1*Lq1*P0u*P1u*P1v*PTv*2.0 + Lp1*Lq1*P0u*P2u*P0v*PTv*4.0 + Lp1*Lq1*P0u*P0v*P2v*PTu*4.0 - Lp1*Lq1*P1u*P0v*P1v*PTu*2.0 - Lp2*Lq1*P0u*P1u*P0v*PTv*2.0 - Lp2*Lq1*P0u*P0v*P1v*PTu*2.0 + Lp1*Lq1*P0u*P1u*P2v*PTv*6.0 - Lp1*Lq1*P0u*P1v*P2v*PTu*6.0 - Lp1*Lq1*P1u*P2u*P0v*PTv*6.0 + Lp1*Lq1*P2u*P0v*P1v*PTu*6.0 - Lp2*Lq1*P0u*P1u*P1v*PTv*2.0 + Lp2*Lq1*P0u*P2u*P0v*PTv*2.0 + Lp2*Lq1*P0u*P0v*P2v*PTu*2.0 - Lp2*Lq1*P1u*P0v*P1v*PTu*2.0 + Lp1*Lq1*P1u*P2u*P1v*PTv*2.0 + Lp1*Lq1*P1u*P1v*P2v*PTu*2.0 + Lp2*Lq1*P0u*P1u*P2v*PTv*4.0 - Lp2*Lq1*P0u*P2u*P1v*PTv*2.0 - Lp2*Lq1*P0u*P1v*P2v*PTu*2.0 - Lp2*Lq1*P1u*P2u*P0v*PTv*2.0 - Lp2*Lq1*P1u*P0v*P2v*PTu*2.0 + Lp2*Lq1*P2u*P0v*P1v*PTu*4.0 + Lp2*Lq1*P1u*P2u*P1v*PTv*2.0 + Lp2*Lq1*P1u*P1v*P2v*PTu*2.0 - Lp1*Lq1*P0u*P0v*PTu*PTv*4.0 + Lp1*Lq1*P0u*P1v*PTu*PTv*2.0 + Lp1*Lq1*P1u*P0v*PTu*PTv*2.0 + Lp1*Lq1*P0u*P2v*PTu*PTv*2.0 + Lp1*Lq1*P2u*P0v*PTu*PTv*2.0 - Lp1*Lq1*P1u*P2v*PTu*PTv*2.0 - Lp1*Lq1*P2u*P1v*PTu*PTv*2.0)*(1.0 / 2.0) + P0u*P1v*(1.0 / 2.0) - P1u*P0v*(1.0 / 2.0) - P0u*PTv*(1.0 / 2.0) + P0v*PTu*(1.0 / 2.0) + P1u*PTv*(1.0 / 2.0) - P1v*PTu*(1.0 / 2.0) - Lp1*P0u*P1v*(1.0 / 2.0) + Lp1*P1u*P0v*(1.0 / 2.0) + Lp1*P0u*P2v - Lp1*P2u*P0v - Lp2*P0u*P1v*(1.0 / 2.0) + Lp2*P1u*P0v*(1.0 / 2.0) - Lp1*P1u*P2v*(1.0 / 2.0) + Lp1*P2u*P1v*(1.0 / 2.0) + Lp2*P0u*P2v*(1.0 / 2.0) - Lp2*P2u*P0v*(1.0 / 2.0) - Lp2*P1u*P2v*(1.0 / 2.0) + Lp2*P2u*P1v*(1.0 / 2.0) + Lq1*P0u*P1v*(1.0 / 2.0) - Lq1*P1u*P0v*(1.0 / 2.0) - Lp1*P0u*PTv*(1.0 / 2.0) + Lp1*P0v*PTu*(1.0 / 2.0) + Lp1*P2u*PTv*(1.0 / 2.0) - Lp1*P2v*PTu*(1.0 / 2.0) - Lq1*P0u*PTv*(1.0 / 2.0) + Lq1*P0v*PTu*(1.0 / 2.0) + Lq1*P1u*PTv*(1.0 / 2.0) - Lq1*P1v*PTu*(1.0 / 2.0)) / (P0u*P1v - P1u*P0v - P0u*PTv + P0v*PTu + P1u*PTv - P1v*PTu - Lp1*P0u*P1v + Lp1*P1u*P0v + Lp1*P0u*P2v - Lp1*P2u*P0v - Lp1*P1u*P2v + Lp1*P2u*P1v)
    else
      1.0 - (sqrtm (Lp1*Lp1*P0u*P0u*P2v*P2v - 2 * Lp1*Lp1*P0u*P0u*P2v*PTv + Lp1*Lp1*P0u*P0u*PTv*PTv - 2 * Lp1*Lp1*P0u*P2u*P0v*P2v + 2 * Lp1*Lp1*P0u*P2u*P0v*PTv + 2 * Lp1*Lp1*P0u*P2u*P2v*PTv - 2 * Lp1*Lp1*P0u*P2u*PTv*PTv + 2 * Lp1*Lp1*P0u*P0v*P2v*PTu - 2 * Lp1*Lp1*P0u*P0v*PTu*PTv - 2 * Lp1*Lp1*P0u*P2v*P2v*PTu + 2 * Lp1*Lp1*P0u*P2v*PTu*PTv + Lp1*Lp1*P2u*P2u*P0v*P0v - 2 * Lp1*Lp1*P2u*P2u*P0v*PTv + Lp1*Lp1*P2u*P2u*PTv*PTv - 2 * Lp1*Lp1*P2u*P0v*P0v*PTu + 2 * Lp1*Lp1*P2u*P0v*P2v*PTu + 2 * Lp1*Lp1*P2u*P0v*PTu*PTv - 2 * Lp1*Lp1*P2u*P2v*PTu*PTv + Lp1*Lp1*P0v*P0v*PTu*PTu - 2 * Lp1*Lp1*P0v*P2v*PTu*PTu + Lp1*Lp1*P2v*P2v*PTu*PTu - 2 * Lp1*Lp2*P0u*P0u*P1v*P2v + 2 * Lp1*Lp2*P0u*P0u*P1v*PTv + 2 * Lp1*Lp2*P0u*P0u*P2v*P2v - 2 * Lp1*Lp2*P0u*P0u*P2v*PTv + 2 * Lp1*Lp2*P0u*P1u*P0v*P2v - 2 * Lp1*Lp2*P0u*P1u*P0v*PTv - 2 * Lp1*Lp2*P0u*P1u*P2v*P2v + 2 * Lp1*Lp2*P0u*P1u*P2v*PTv + 2 * Lp1*Lp2*P0u*P2u*P0v*P1v - 4 * Lp1*Lp2*P0u*P2u*P0v*P2v + 2 * Lp1*Lp2*P0u*P2u*P0v*PTv + 2 * Lp1*Lp2*P0u*P2u*P1v*P2v - 4 * Lp1*Lp2*P0u*P2u*P1v*PTv + 2 * Lp1*Lp2*P0u*P2u*P2v*PTv - 2 * Lp1*Lp2*P0u*P0v*P1v*PTu + 2 * Lp1*Lp2*P0u*P0v*P2v*PTu + 2 * Lp1*Lp2*P0u*P1v*P2v*PTu - 2 * Lp1*Lp2*P0u*P2v*P2v*PTu - 2 * Lp1*Lp2*P1u*P2u*P0v*P0v + 2 * Lp1*Lp2*P1u*P2u*P0v*P2v + 2 * Lp1*Lp2*P1u*P2u*P0v*PTv - 2 * Lp1*Lp2*P1u*P2u*P2v*PTv + 2 * Lp1*Lp2*P1u*P0v*P0v*PTu - 4 * Lp1*Lp2*P1u*P0v*P2v*PTu + 2 * Lp1*Lp2*P1u*P2v*P2v*PTu + 2 * Lp1*Lp2*P2u*P2u*P0v*P0v - 2 * Lp1*Lp2*P2u*P2u*P0v*P1v - 2 * Lp1*Lp2*P2u*P2u*P0v*PTv + 2 * Lp1*Lp2*P2u*P2u*P1v*PTv - 2 * Lp1*Lp2*P2u*P0v*P0v*PTu + 2 * Lp1*Lp2*P2u*P0v*P1v*PTu + 2 * Lp1*Lp2*P2u*P0v*P2v*PTu - 2 * Lp1*Lp2*P2u*P1v*P2v*PTu - 2 * Lp1*Lq1*P0u*P0u*P1v*P2v + 2 * Lp1*Lq1*P0u*P0u*P1v*PTv + 2 * Lp1*Lq1*P0u*P0u*P2v*PTv - 2 * Lp1*Lq1*P0u*P0u*PTv*PTv + 2 * Lp1*Lq1*P0u*P1u*P0v*P2v - 2 * Lp1*Lq1*P0u*P1u*P0v*PTv - 2 * Lp1*Lq1*P0u*P1u*P2v*PTv + 2 * Lp1*Lq1*P0u*P1u*PTv*PTv + 2 * Lp1*Lq1*P0u*P2u*P0v*P1v - 2 * Lp1*Lq1*P0u*P2u*P0v*PTv - 2 * Lp1*Lq1*P0u*P2u*P1v*PTv + 2 * Lp1*Lq1*P0u*P2u*PTv*PTv - 2 * Lp1*Lq1*P0u*P0v*P1v*PTu - 2 * Lp1*Lq1*P0u*P0v*P2v*PTu + 4 * Lp1*Lq1*P0u*P0v*PTu*PTv + 4 * Lp1*Lq1*P0u*P1v*P2v*PTu - 2 * Lp1*Lq1*P0u*P1v*PTu*PTv - 2 * Lp1*Lq1*P0u*P2v*PTu*PTv - 2 * Lp1*Lq1*P1u*P2u*P0v*P0v + 4 * Lp1*Lq1*P1u*P2u*P0v*PTv - 2 * Lp1*Lq1*P1u*P2u*PTv*PTv + 2 * Lp1*Lq1*P1u*P0v*P0v*PTu - 2 * Lp1*Lq1*P1u*P0v*P2v*PTu - 2 * Lp1*Lq1*P1u*P0v*PTu*PTv + 2 * Lp1*Lq1*P1u*P2v*PTu*PTv + 2 * Lp1*Lq1*P2u*P0v*P0v*PTu - 2 * Lp1*Lq1*P2u*P0v*P1v*PTu - 2 * Lp1*Lq1*P2u*P0v*PTu*PTv + 2 * Lp1*Lq1*P2u*P1v*PTu*PTv - 2 * Lp1*Lq1*P0v*P0v*PTu*PTu + 2 * Lp1*Lq1*P0v*P1v*PTu*PTu + 2 * Lp1*Lq1*P0v*P2v*PTu*PTu - 2 * Lp1*Lq1*P1v*P2v*PTu*PTu + Lp2*Lp2*P0u*P0u*P1v*P1v - 2 * Lp2*Lp2*P0u*P0u*P1v*P2v + Lp2*Lp2*P0u*P0u*P2v*P2v - 2 * Lp2*Lp2*P0u*P1u*P0v*P1v + 2 * Lp2*Lp2*P0u*P1u*P0v*P2v + 2 * Lp2*Lp2*P0u*P1u*P1v*P2v - 2 * Lp2*Lp2*P0u*P1u*P2v*P2v + 2 * Lp2*Lp2*P0u*P2u*P0v*P1v - 2 * Lp2*Lp2*P0u*P2u*P0v*P2v - 2 * Lp2*Lp2*P0u*P2u*P1v*P1v + 2 * Lp2*Lp2*P0u*P2u*P1v*P2v + Lp2*Lp2*P1u*P1u*P0v*P0v - 2 * Lp2*Lp2*P1u*P1u*P0v*P2v + Lp2*Lp2*P1u*P1u*P2v*P2v - 2 * Lp2*Lp2*P1u*P2u*P0v*P0v + 2 * Lp2*Lp2*P1u*P2u*P0v*P1v + 2 * Lp2*Lp2*P1u*P2u*P0v*P2v - 2 * Lp2*Lp2*P1u*P2u*P1v*P2v + Lp2*Lp2*P2u*P2u*P0v*P0v - 2 * Lp2*Lp2*P2u*P2u*P0v*P1v + Lp2*Lp2*P2u*P2u*P1v*P1v - 2 * Lp2*Lq1*P0u*P0u*P1v*P1v + 2 * Lp2*Lq1*P0u*P0u*P1v*P2v + 2 * Lp2*Lq1*P0u*P0u*P1v*PTv - 2 * Lp2*Lq1*P0u*P0u*P2v*PTv + 4 * Lp2*Lq1*P0u*P1u*P0v*P1v - 2 * Lp2*Lq1*P0u*P1u*P0v*P2v - 2 * Lp2*Lq1*P0u*P1u*P0v*PTv - 2 * Lp2*Lq1*P0u*P1u*P1v*P2v - 2 * Lp2*Lq1*P0u*P1u*P1v*PTv + 4 * Lp2*Lq1*P0u*P1u*P2v*PTv - 2 * Lp2*Lq1*P0u*P2u*P0v*P1v + 2 * Lp2*Lq1*P0u*P2u*P0v*PTv + 2 * Lp2*Lq1*P0u*P2u*P1v*P1v - 2 * Lp2*Lq1*P0u*P2u*P1v*PTv - 2 * Lp2*Lq1*P0u*P0v*P1v*PTu + 2 * Lp2*Lq1*P0u*P0v*P2v*PTu + 2 * Lp2*Lq1*P0u*P1v*P1v*PTu - 2 * Lp2*Lq1*P0u*P1v*P2v*PTu - 2 * Lp2*Lq1*P1u*P1u*P0v*P0v + 2 * Lp2*Lq1*P1u*P1u*P0v*P2v + 2 * Lp2*Lq1*P1u*P1u*P0v*PTv - 2 * Lp2*Lq1*P1u*P1u*P2v*PTv + 2 * Lp2*Lq1*P1u*P2u*P0v*P0v - 2 * Lp2*Lq1*P1u*P2u*P0v*P1v - 2 * Lp2*Lq1*P1u*P2u*P0v*PTv + 2 * Lp2*Lq1*P1u*P2u*P1v*PTv + 2 * Lp2*Lq1*P1u*P0v*P0v*PTu - 2 * Lp2*Lq1*P1u*P0v*P1v*PTu - 2 * Lp2*Lq1*P1u*P0v*P2v*PTu + 2 * Lp2*Lq1*P1u*P1v*P2v*PTu - 2 * Lp2*Lq1*P2u*P0v*P0v*PTu + 4 * Lp2*Lq1*P2u*P0v*P1v*PTu - 2 * Lp2*Lq1*P2u*P1v*P1v*PTu + 4 * Lp2*P0u*P0u*P1v*P2v - 4 * Lp2*P0u*P0u*P1v*PTv - 4 * Lp2*P0u*P0u*P2v*PTv + 4 * Lp2*P0u*P0u*PTv*PTv - 4 * Lp2*P0u*P1u*P0v*P2v + 4 * Lp2*P0u*P1u*P0v*PTv + 4 * Lp2*P0u*P1u*P2v*PTv - 4 * Lp2*P0u*P1u*PTv*PTv - 4 * Lp2*P0u*P2u*P0v*P1v + 4 * Lp2*P0u*P2u*P0v*PTv + 4 * Lp2*P0u*P2u*P1v*PTv - 4 * Lp2*P0u*P2u*PTv*PTv + 4 * Lp2*P0u*P0v*P1v*PTu + 4 * Lp2*P0u*P0v*P2v*PTu - 8 * Lp2*P0u*P0v*PTu*PTv - 8 * Lp2*P0u*P1v*P2v*PTu + 4 * Lp2*P0u*P1v*PTu*PTv + 4 * Lp2*P0u*P2v*PTu*PTv + 4 * Lp2*P1u*P2u*P0v*P0v - 8 * Lp2*P1u*P2u*P0v*PTv + 4 * Lp2*P1u*P2u*PTv*PTv - 4 * Lp2*P1u*P0v*P0v*PTu + 4 * Lp2*P1u*P0v*P2v*PTu + 4 * Lp2*P1u*P0v*PTu*PTv - 4 * Lp2*P1u*P2v*PTu*PTv - 4 * Lp2*P2u*P0v*P0v*PTu + 4 * Lp2*P2u*P0v*P1v*PTu + 4 * Lp2*P2u*P0v*PTu*PTv - 4 * Lp2*P2u*P1v*PTu*PTv + 4 * Lp2*P0v*P0v*PTu*PTu - 4 * Lp2*P0v*P1v*PTu*PTu - 4 * Lp2*P0v*P2v*PTu*PTu + 4 * Lp2*P1v*P2v*PTu*PTu + Lq1*Lq1*P0u*P0u*P1v*P1v - 2 * Lq1*Lq1*P0u*P0u*P1v*PTv + Lq1*Lq1*P0u*P0u*PTv*PTv - 2 * Lq1*Lq1*P0u*P1u*P0v*P1v + 2 * Lq1*Lq1*P0u*P1u*P0v*PTv + 2 * Lq1*Lq1*P0u*P1u*P1v*PTv - 2 * Lq1*Lq1*P0u*P1u*PTv*PTv + 2 * Lq1*Lq1*P0u*P0v*P1v*PTu - 2 * Lq1*Lq1*P0u*P0v*PTu*PTv - 2 * Lq1*Lq1*P0u*P1v*P1v*PTu + 2 * Lq1*Lq1*P0u*P1v*PTu*PTv + Lq1*Lq1*P1u*P1u*P0v*P0v - 2 * Lq1*Lq1*P1u*P1u*P0v*PTv + Lq1*Lq1*P1u*P1u*PTv*PTv - 2 * Lq1*Lq1*P1u*P0v*P0v*PTu + 2 * Lq1*Lq1*P1u*P0v*P1v*PTu + 2 * Lq1*Lq1*P1u*P0v*PTu*PTv - 2 * Lq1*Lq1*P1u*P1v*PTu*PTv + Lq1*Lq1*P0v*P0v*PTu*PTu - 2 * Lq1*Lq1*P0v*P1v*PTu*PTu + Lq1*Lq1*P1v*P1v*PTu*PTu) + 2 * P0u*P1v - 2 * P1u*P0v - 2 * P0u*PTv + 2 * P0v*PTu + 2 * P1u*PTv - 2 * P1v*PTu - 2 * Lp1*P0u*P1v + 2 * Lp1*P1u*P0v + Lp1*P0u*P2v - Lp1*P2u*P0v - Lp2*P0u*P1v + Lp2*P1u*P0v - 2 * Lp1*P1u*P2v + 2 * Lp1*P2u*P1v + Lp2*P0u*P2v - Lp2*P2u*P0v - Lp2*P1u*P2v + Lp2*P2u*P1v + Lq1*P0u*P1v - Lq1*P1u*P0v + Lp1*P0u*PTv - Lp1*P0v*PTu - Lp1*P2u*PTv + Lp1*P2v*PTu - Lq1*P0u*PTv + Lq1*P0v*PTu + Lq1*P1u*PTv - Lq1*P1v*PTu) / (2 * (P0u*P1v - P1u*P0v - P0u*PTv + P0v*PTu + P1u*PTv - P1v*PTu - Lp1*P0u*P1v + Lp1*P1u*P0v + Lp1*P0u*P2v - Lp1*P2u*P0v - Lp1*P1u*P2v + Lp1*P2u*P1v))
  if Rp1 < 0 then
    (Rp1*dR + Rp2) / (dR + Rq1)
  else
    (Rp1*(1 - dR) + Rp2) / ((1 - dR) + Rq1)

/-- The three per-channel solver outputs computed at the start of
`LedEngine::setCie1976Ucs` (lines computing `raw.R`, `raw.G`, `raw.B`),
with the fixed neighbor rotation red to green to blue to red. -/
def rawSolve (sqrtm : ℚ → ℚ) (target : Luv) (st : EngineState) : RGB :=
  { R := findCoefficient_ sqrtm target st.redUv st.greenUv st.blueUv st.redToGreenFit st.greenToBlueFit
    G := findCoefficient_ sqrtm target st.greenUv st.blueUv st.redUv st.greenToBlueFit st.blueToRedFit
    B := findCoefficient_ sqrtm target st.blueUv st.redUv st.greenUv st.blueToRedFit st.redToGreenFit }

/-- Luma produced by raw values `r`:
`(r.R * redLum_ + r.G * greenLum_ + r.B * blueLum_) / maxLum_`. -/
def lumaY (st : EngineState) (r : RGB) : ℚ :=
  (r.R * st.redLum + r.G * st.greenLum + r.B * st.blueLum) / st.maxLum

/-- Luma level needed for requested lightness `L`: `((L + 16) / 116) ^ 3`,
computed as in the source by repeated multiplication. -/
def targetLuma (L : ℚ) : ℚ :=
  let Yt := (L + 16) / 116
  Yt * Yt * Yt

/-- Solver output scaled by the luma factor `C = Y_target / Y`. -/
def scaledRaw (sqrtm : ℚ → ℚ) (target : Luv) (st : EngineState) : RGB :=
  let raw := rawSolve sqrtm target st
  let C := targetLuma target.L / lumaY st raw
  { R := raw.R * C, G := raw.G * C, B := raw.B * C }

/-- The running-maximum chain of `setCie1976Ucs`
(`maxRaw = R; if (G > maxRaw) ...; if (B > maxRaw) ...`). -/
def runningMax (a b c : ℚ) : ℚ :=
  let m1 := if b > a then b else a
  if c > m1 then c else m1

/-- Maximum of the luma-scaled solver output. -/
def scaledMax (sqrtm : ℚ → ℚ) (target : Luv) (st : EngineState) : ℚ :=
  let s := scaledRaw sqrtm target st
  runningMax s.R s.G s.B

/-- The gamut clamp of `setCie1976Ucs`: if the maximum scaled channel
exceeds 1, rescale all three channels by `1 / max`. -/
def clampedRaw (sqrtm : ℚ → ℚ) (target : Luv) (st : EngineState) : RGB :=
  let s := scaledRaw sqrtm target st
  let m := scaledMax sqrtm target st
  if m > 1 then { R := s.R * (1.0 / m), G := s.G * (1.0 / m), B := s.B * (1.0 / m) }
  else s

/-- `LedEngine::setCie1976Ucs`: store the target into `luv_` (lightness
floor-clamped at 0), solve, luma-normalize, gamut-clamp, then `setRaw`
(which in turn overwrites `luv_` and `T_` with their unset sentinels). -/
def setCie1976Ucs (sqrtm : ℚ → ℚ) (target : Luv) (st : EngineState) :
    EngineState × List (Chan × ℤ) :=
  let luv1 : Luv := { L := if target.L < 0 then 0 else target.L, u := target.u, v := target.v }
  setRaw (clampedRaw sqrtm target st) { st with luv := luv1 }

/-- Z-score transform of the color temperature: `x = (T - 5500.0) / 2599.0`. -/
def zscore (T : ℕ) : ℚ := ((T : ℚ) - 5500.0) / 2599.0

/-- The u-chromaticity rational fit of `LedEngine::setColorTemperature`. -/
def chromaticityU (T : ℕ) : ℚ :=
  let x := zscore T
  let x2 := x*x
  let x3 := x*x*x
  (-0.0001747*x3 + 0.1833*x2 + 0.872*x + 1.227) / (x2 + 4.813*x + 5.933)

/-- The v-chromaticity rational fit of `LedEngine::setColorTemperature`. -/
def chromaticityV (T : ℕ) : ℚ :=
  let x := zscore T
  let x2 := x*x
  let x3 := x*x*x
  let x4 := x*x*x*x
  (0.000311*x4 + 0.0009124*x3 + 0.3856*x2 + 1.873*x + 2.619) / (x2 + 4.323*x + 5.485)

/-- The Luv target constructed by `setColorTemperature`: the fitted
chromaticity together with `L` when `L > 0`, else the cached `luv_.L`. -/
def ctTargetLuv (L : ℚ) (T : ℕ) (st : EngineState) : Luv :=
  { L := if L > 0 then L else st.luv.L, u := chromaticityU T, v := chromaticityV T }

/-- `LedEngine::setColorTemperature`: build the Luv target from the
polynomial fit, run `setCie1976Ucs`, then store `T` into `T_`. -/
def setColorTemperature (sqrtm : ℚ → ℚ) (L : ℚ) (T : ℕ) (st : EngineState) :
    EngineState × List (Chan × ℤ) :=
  let res := setCie1976Ucs sqrtm (ctTargetLuv L T st) st
  ({ res.1 with T := T }, res.2)

/-- The argument bundle of `LedEngine::calibrate`. -/
structure CalibArgs where
  redUv : Luv
  greenUv : Luv
  blueUv : Luv
  redLum : ℚ
  greenLum : ℚ
  blueLum : ℚ
  redToGreenFit : Fit
  greenToBlueFit : Fit
  blueToRedFit : Fit
deriving DecidableEq

/-- The field updates performed by `LedEngine::calibrate`: the `u`, `v`
coordinates of the three primaries (their `L` members are not copied), the
three luminous fluxes and the three fit records.  `maxLum_` has no
corresponding parameter and is left unchanged. -/
def storeCalib (c : CalibArgs) (st : EngineState) : EngineState :=
  { st with
    redUv := { st.redUv with u := c.redUv.u, v := c.redUv.v }
    greenUv := { st.greenUv with u := c.greenUv.u, v := c.greenUv.v }
    blueUv := { st.blueUv with u := c.blueUv.u, v := c.blueUv.v }
    redLum := c.redLum
    greenLum := c.greenLum
    blueLum := c.blueLum
    redToGreenFit := c.redToGreenFit
    greenToBlueFit := c.greenToBlueFit
    blueToRedFit := c.blueToRedFit }

/-- `LedEngine::calibrate`: overwrite the calibration fields, then update the
current color: re-solve through `setColorTemperature` when `T_ >= 1000`, else
through `setCie1976Ucs` when `luv_.L >= 0`, else do nothing further. -/
def calibrate (sqrtm : ℚ → ℚ) (c : CalibArgs) (st : EngineState) :
    EngineState × List (Chan × ℤ) :=
  let st1 := storeCalib c st
  if 1000 ≤ st1.T then setColorTemperature sqrtm st1.luv.L st1.T st1
  else if 0 ≤ st1.luv.L then setCie1976Ucs sqrtm st1.luv st1
  else (st1, [])

/-- A concrete model of the double square root, used only to instantiate the
`sqrtm` parameter in concrete runs; every place it is applied below receives
the argument 0, where it agrees with the real square root. -/
def sqrtZero : ℚ → ℚ := fun _ => 0

/-- A concrete fit record with negative leading coefficient. -/
def fitA : Fit := { p1 := -1, p2 := 2, q1 := 1 }

/-- Degenerate calibration arguments (all primaries at the UCS origin),
chosen so the solver's closed form can be evaluated exactly. -/
def calibZero : CalibArgs :=
  { redUv := { L := 100, u := 0, v := 0 }
    greenUv := { L := 100, u := 0, v := 0 }
    blueUv := { L := 100, u := 0, v := 0 }
    redLum := 1, greenLum := 1, blueLum := 1
    redToGreenFit := fitA, greenToBlueFit := fitA, blueToRedFit := fitA }

/-- The default calibration values of `LedEngine.h` as a `calibrate`
argument bundle. -/
def calibDefault : CalibArgs :=
  { redUv := { L := 100, u := 0.5535, v := 0.5170 }
    greenUv := { L := 100, u := 0.0373, v := 0.5856 }
    blueUv := { L := 100, u := 0.1679, v := 0.1153 }
    redLum := 0.5, greenLum := 1.0, blueLum := 0.75
    redToGreenFit := { p1 := 2.9658, p2 := 0.0, q1 := 1.9658 }
    greenToBlueFit := { p1 := 1.3587, p2 := 0.0, q1 := 0.3587 }
    blueToRedFit := { p1 := -0.2121, p2 := 0.2121, q1 := 0.2121 } }

/-- A concrete engine state with the degenerate calibration: powered on,
8-bit PWM range. -/
def stDemo : EngineState :=
  { pwmRange := 255, onOff := true
    raw := { R := 0, G := 0, B := 0 }
    luv := { L := 50, u := 1/5, v := 9/20 }
    T := 1900
    redUv := { L := 100, u := 0, v := 0 }
    greenUv := { L := 100, u := 0, v := 0 }
    blueUv := { L := 100, u := 0, v := 0 }
    redLum := 1, greenLum := 1, blueLum := 1
    maxLum := 12
    redToGreenFit := fitA, greenToBlueFit := fitA, blueToRedFit := fitA }

/-- A concrete state in which both perceptual caches are below their
validity thresholds (`T_ < 1000` and `luv_.L < 0`). -/
def stInvalid : EngineState := { stDemo with T := 500, luv := { L := -1, u := -1, v := -1 } }

/-- The concrete state reached immediately after a direct `setRaw` call. -/
def stAfterSetRaw : EngineState := (setRaw { R := 1/2, G := 1/2, B := 1/2 } stDemo).1

/-- Membership of all three raw components in the closed interval `[0, 1]`. -/
def inUnit (r : RGB) : Prop :=
  0 ≤ r.R ∧ r.R ≤ 1 ∧ 0 ≤ r.G ∧ r.G ≤ 1 ∧ 0 ≤ r.B ∧ r.B ≤ 1


/-- The numerator polynomial of the u-chromaticity fit, read off the source
expression `-0.0001747*x3 + 0.1833*x2 + 0.872*x + 1.227`. -/
noncomputable def ctUNum : Polynomial ℚ :=
  Polynomial.C (-0.0001747) * Polynomial.X ^ 3 + Polynomial.C 0.1833 * Polynomial.X ^ 2 +
    Polynomial.C 0.872 * Polynomial.X + Polynomial.C 1.227

/-- The denominator polynomial of the u-chromaticity fit,
`x2 + 4.813*x + 5.933`. -/
noncomputable def ctUDen : Polynomial ℚ :=
  Polynomial.X ^ 2 + Polynomial.C 4.813 * Polynomial.X + Polynomial.C 5.933

/-- The numerator polynomial of the v-chromaticity fit,
`0.000311*x4 + 0.0009124*x3 + 0.3856*x2 + 1.873*x + 2.619`. -/
noncomputable def ctVNum : Polynomial ℚ :=
  Polynomial.C 0.000311 * Polynomial.X ^ 4 + Polynomial.C 0.0009124 * Polynomial.X ^ 3 +
    Polynomial.C 0.3856 * Polynomial.X ^ 2 + Polynomial.C 1.873 * Polynomial.X +
    Polynomial.C 2.619

/-- The denominator polynomial of the v-chromaticity fit,
`x2 + 4.323*x + 5.485`. -/
noncomputable def ctVDen : Polynomial ℚ :=
  Polynomial.X ^ 2 + Polynomial.C 4.323 * Polynomial.X + Polynomial.C 5.485

theorem clamp01_nonneg (q : ℚ) : 0 ≤ clamp01 q := by
  unfold clamp01; split_ifs <;> linarith

theorem clamp01_le_one (q : ℚ) : clamp01 q ≤ 1 := by
  unfold clamp01; split_ifs <;> linarith

theorem clamp01_eq_self {q : ℚ} (h0 : 0 ≤ q) (h1 : q ≤ 1) : clamp01 q = q := by
  unfold clamp01; split_ifs <;> linarith

theorem pwmOf_nonneg (N : ℕ) (x : ℚ) : 0 ≤ pwmOf N x := by
  unfold pwmOf cTrunc
  have hq : (0 : ℚ) ≤ clamp01 x * (N : ℚ) + 0.5 := by
    have h1 : (0 : ℚ) ≤ clamp01 x * (N : ℚ) :=
      mul_nonneg (clamp01_nonneg x) (by positivity)
    norm_num; linarith
  rw [if_neg (by linarith)]
  exact Int.floor_nonneg.mpr hq

theorem pwmOf_le (N : ℕ) (x : ℚ) : pwmOf N x ≤ (N : ℤ) := by
  unfold pwmOf cTrunc
  have h1 : clamp01 x * (N : ℚ) ≤ (N : ℚ) := by
    have := clamp01_le_one x
    have hN : (0 : ℚ) ≤ (N : ℚ) := by positivity
    nlinarith
  have hq : (0 : ℚ) ≤ clamp01 x * (N : ℚ) + 0.5 := by
    have := mul_nonneg (clamp01_nonneg x) (show (0:ℚ) ≤ (N:ℚ) by positivity)
    norm_num; linarith
  rw [if_neg (by linarith)]
  have hlt : clamp01 x * (N : ℚ) + 0.5 < ((N : ℤ) + 1 : ℤ) := by
    push_cast; norm_num; linarith
  exact Int.lt_add_one_iff.mp (Int.floor_lt.mpr hlt)

theorem quant_nonneg (N : ℕ) (x : ℚ) : 0 ≤ quant N x := by
  unfold quant
  exact div_nonneg (by exact_mod_cast pwmOf_nonneg N x) (by positivity)

theorem quant_le_one {N : ℕ} (hN : 0 < N) (x : ℚ) : quant N x ≤ 1 := by
  unfold quant
  rw [div_le_one (by exact_mod_cast hN)]
  exact_mod_cast pwmOf_le N x

theorem pwmOf_eq_floor (N : ℕ) (x : ℚ) : pwmOf N x = ⌊clamp01 x * (N : ℚ) + 0.5⌋ := by
  have h1 : (0 : ℚ) ≤ clamp01 x * (N : ℚ) :=
    mul_nonneg (clamp01_nonneg x) (by positivity)
  unfold pwmOf cTrunc
  rw [if_neg (by norm_num; linarith)]

theorem pwmOf_quant {N : ℕ} (hN : 0 < N) (x : ℚ) : pwmOf N (quant N x) = pwmOf N x := by
  have hNQ : (N : ℚ) ≠ 0 := by positivity
  have hmem : clamp01 (quant N x) = quant N x :=
    clamp01_eq_self (quant_nonneg N x) (quant_le_one hN x)
  rw [pwmOf_eq_floor N (quant N x), hmem]
  have hq2 : quant N x * (N : ℚ) = ((pwmOf N x : ℤ) : ℚ) := by
    unfold quant; exact div_mul_cancel₀ _ hNQ
  rw [hq2, Int.floor_int_add]
  have h5 : ⌊(0.5 : ℚ)⌋ = 0 := by norm_num [Int.floor_eq_zero_iff]
  rw [h5, add_zero]

theorem quant_quant {N : ℕ} (hN : 0 < N) (x : ℚ) : quant N (quant N x) = quant N x := by
  rw [quant, pwmOf_quant hN]; rfl

theorem quant_one {N : ℕ} (hN : 0 < N) : quant N 1 = 1 := by
  have hNQ : (N : ℚ) ≠ 0 := by positivity
  rw [quant, pwmOf_eq_floor, clamp01_eq_self (by norm_num) le_rfl, one_mul]
  have hc : ((N : ℚ) + 0.5) = (((N : ℕ) : ℤ) : ℚ) + 0.5 := by push_cast; ring
  rw [hc, Int.floor_int_add]
  have h5 : ⌊(0.5 : ℚ)⌋ = 0 := by norm_num [Int.floor_eq_zero_iff]
  rw [h5, add_zero]
  push_cast
  exact div_self hNQ

theorem inUnit_mk_quant {N : ℕ} (hN : 0 < N) (a b c : ℚ) :
    inUnit { R := quant N a, G := quant N b, B := quant N c } :=
  ⟨quant_nonneg N a, quant_le_one hN a, quant_nonneg N b, quant_le_one hN b,
   quant_nonneg N c, quant_le_one hN c⟩

theorem setRaw_fst (r : RGB) (st : EngineState) :
    (setRaw r st).1 =
      { st with
        raw := { R := quant st.pwmRange r.R, G := quant st.pwmRange r.G, B := quant st.pwmRange r.B }
        luv := { L := -1, u := -1, v := -1 }
        T := u16 (-1) } := rfl

theorem setCie1976Ucs_fst_raw (sqrtm : ℚ → ℚ) (t : Luv) (st : EngineState) :
    (setCie1976Ucs sqrtm t st).1.raw =
      { R := quant st.pwmRange (clampedRaw sqrtm t st).R
        G := quant st.pwmRange (clampedRaw sqrtm t st).G
        B := quant st.pwmRange (clampedRaw sqrtm t st).B } := rfl

theorem setColorTemperature_fst_raw (sqrtm : ℚ → ℚ) (L : ℚ) (T : ℕ) (st : EngineState) :
    (setColorTemperature sqrtm L T st).1.raw =
      (setCie1976Ucs sqrtm (ctTargetLuv L T st) st).1.raw := rfl

theorem u16_neg_one : u16 (-1) = 65535 := by decide

/-- Claim C3: the unset sentinel for `TemperatureState` is `-1` assigned into
a `uint16_t`, i.e. 65535; after every `setRaw` (including the one made
internally by `setCie1976Ucs`) `getColorTemperature` returns 65535, and the
validity test `T_ >= 1000` used by `calibrate` classifies this sentinel as a
valid temperature. -/
theorem setRaw_temperature_sentinel_is_65535 (sqrtm : ℚ → ℚ) (r : RGB) (t : Luv)
    (st : EngineState) :
    u16 (-1) = 65535 ∧
    (setRaw r st).1.T = 65535 ∧
    getColorTemperature (setRaw r st).1 = 65535 ∧
    (setCie1976Ucs sqrtm t st).1.T = 65535 ∧
    getColorTemperature (setCie1976Ucs sqrtm t st).1 = 65535 ∧
    1000 ≤ (setRaw r st).1.T := by
  refine ⟨u16_neg_one, ?_, ?_, ?_, ?_, ?_⟩ <;>
    simp [setRaw, setCie1976Ucs, getColorTemperature, u16_neg_one]

/-- Claim C4: immediately after `setCie1976Ucs` returns, `getCie1976Ucs`
returns the sentinel `{-1, -1, -1}` rather than the target: the final
internal `setRaw` overwrites the Luv cache and nothing restores it. -/
theorem setCie1976Ucs_resets_perceptual_cache (sqrtm : ℚ → ℚ) (target : Luv)
    (st : EngineState) :
    getCie1976Ucs (setCie1976Ucs sqrtm target st).1 = { L := -1, u := -1, v := -1 } := rfl

/-- Claim C9: `setColorTemperature(L, T)` followed by `getColorTemperature()`
returns exactly `T` whenever `L > 0` (and `T` is in the `uint16_t` range);
`T_` is written after the internal solve completes. -/
theorem setColorTemperature_preserves_T (sqrtm : ℚ → ℚ) (L : ℚ) (T : ℕ)
    (st : EngineState) (hL : 0 < L) (hT : T < 65536) :
    getColorTemperature (setColorTemperature sqrtm L T st).1 = T := rfl

theorem setColorTemperature_preserves_T_witness :
    (0 : ℚ) < 50 ∧ 3000 < 65536 ∧
    getColorTemperature (setColorTemperature sqrtZero 50 3000 stDemo).1 = 3000 :=
  ⟨by norm_num, by norm_num,
   setColorTemperature_preserves_T sqrtZero 50 3000 stDemo (by norm_num) (by norm_num)⟩

/-- Claim C5: after every mutating operation (`setRaw`, `setCie1976Ucs`,
`setColorTemperature`, `setOnOff`, `calibrate`), each component of the stored
raw state lies in `[0, 1]` (for the branches that do not touch `raw_`, namely
`setOnOff(false)` and the no-resolve branch of `calibrate`, this relies on
the invariant already holding). -/
theorem raw_components_in_unit_interval (sqrtm : ℚ → ℚ) (r : RGB) (b : Bool)
    (t : Luv) (L : ℚ) (T : ℕ) (c : CalibArgs) (st : EngineState)
    (hN : 0 < st.pwmRange) (hr : inUnit st.raw) :
    inUnit (setRaw r st).1.raw ∧
    inUnit (setOnOff b st).1.raw ∧
    inUnit (setCie1976Ucs sqrtm t st).1.raw ∧
    inUnit (setColorTemperature sqrtm L T st).1.raw ∧
    inUnit (calibrate sqrtm c st).1.raw := by
  refine ⟨inUnit_mk_quant hN _ _ _, ?_, inUnit_mk_quant hN _ _ _,
          inUnit_mk_quant hN _ _ _, ?_⟩
  · cases b
    · simpa [setOnOff] using hr
    · exact inUnit_mk_quant hN _ _ _
  · simp only [calibrate]
    split_ifs
    · exact inUnit_mk_quant hN _ _ _
    · exact inUnit_mk_quant hN _ _ _
    · exact hr

theorem raw_components_in_unit_interval_witness :
    0 < stDemo.pwmRange ∧ inUnit stDemo.raw ∧
    (inUnit (setRaw { R := 3/10, G := 7/10, B := 6/5 } stDemo).1.raw ∧
     inUnit (setOnOff false stDemo).1.raw ∧
     inUnit (setCie1976Ucs sqrtZero { L := 100, u := 0, v := 0 } stDemo).1.raw ∧
     inUnit (setColorTemperature sqrtZero 50 3000 stDemo).1.raw ∧
     inUnit (calibrate sqrtZero calibZero stDemo).1.raw) :=
  ⟨by norm_num [stDemo], by norm_num [stDemo, inUnit],
   raw_components_in_unit_interval sqrtZero { R := 3/10, G := 7/10, B := 6/5 } false
     { L := 100, u := 0, v := 0 } 50 3000 calibZero stDemo
     (by norm_num [stDemo]) (by norm_num [stDemo, inUnit])⟩

/-- Claim C6: `setRaw` followed by reading raw state yields components in
`[0, 1]`, and reapplying the returned value through `setRaw` yields the
identical stored value: quantization to the integer duty-cycle resolution is
idempotent. -/
theorem setRaw_idempotent_after_quantization (r : RGB) (st : EngineState)
    (hN : 0 < st.pwmRange) :
    inUnit (setRaw r st).1.raw ∧
    (setRaw (setRaw r st).1.raw (setRaw r st).1).1.raw = (setRaw r st).1.raw := by
  refine ⟨inUnit_mk_quant hN _ _ _, ?_⟩
  show (({ R := quant st.pwmRange (quant st.pwmRange r.R)
           G := quant st.pwmRange (quant st.pwmRange r.G)
           B := quant st.pwmRange (quant st.pwmRange r.B) } : RGB)) = _
  rw [quant_quant hN, quant_quant hN, quant_quant hN]
  rfl

theorem setRaw_idempotent_after_quantization_witness :
    0 < stDemo.pwmRange ∧
    (inUnit (setRaw { R := 3/10, G := 7/10, B := 6/5 } stDemo).1.raw ∧
     (setRaw (setRaw { R := 3/10, G := 7/10, B := 6/5 } stDemo).1.raw
        (setRaw { R := 3/10, G := 7/10, B := 6/5 } stDemo).1).1.raw =
      (setRaw { R := 3/10, G := 7/10, B := 6/5 } stDemo).1.raw) :=
  ⟨by norm_num [stDemo],
   setRaw_idempotent_after_quantization { R := 3/10, G := 7/10, B := 6/5 } stDemo
     (by norm_num [stDemo])⟩

/-- Claim C8: with the light on, `setRaw(x)` then `setOnOff(false)` then
`setOnOff(true)` sends the output boundary the same quantized duty cycles as
the original `setRaw(x)` call, with zero duty cycles on all three channels in
between; `setOnOff(false)` leaves the stored raw state unchanged and
`setOnOff(true)` re-projects the cached raw state without re-solving. -/
theorem power_cycle_preserves_duty_cycles (x : RGB) (st : EngineState)
    (hOn : st.onOff = true) (hN : 0 < st.pwmRange) :
    (setRaw x st).2 =
      [(Chan.red, pwmOf st.pwmRange x.R), (Chan.green, pwmOf st.pwmRange x.G),
       (Chan.blue, pwmOf st.pwmRange x.B)] ∧
    (setOnOff false (setRaw x st).1).2 = [(Chan.red, 0), (Chan.green, 0), (Chan.blue, 0)] ∧
    (setOnOff false (setRaw x st).1).1.raw = (setRaw x st).1.raw ∧
    (setOnOff true (setOnOff false (setRaw x st).1).1).2 = (setRaw x st).2 ∧
    (setOnOff true (setOnOff false (setRaw x st).1).1).1.raw = (setRaw x st).1.raw := by
  refine ⟨?_, rfl, rfl, ?_, ?_⟩
  · simp [setRaw, hOn]
  · show [(Chan.red, pwmOf st.pwmRange (quant st.pwmRange x.R)),
          (Chan.green, pwmOf st.pwmRange (quant st.pwmRange x.G)),
          (Chan.blue, pwmOf st.pwmRange (quant st.pwmRange x.B))] = _
    rw [pwmOf_quant hN, pwmOf_quant hN, pwmOf_quant hN]
    simp [setRaw, hOn]
  · show (({ R := quant st.pwmRange (quant st.pwmRange x.R)
             G := quant st.pwmRange (quant st.pwmRange x.G)
             B := quant st.pwmRange (quant st.pwmRange x.B) } : RGB)) = _
    rw [quant_quant hN, quant_quant hN, quant_quant hN]
    rfl

theorem power_cycle_preserves_duty_cycles_witness :
    stDemo.onOff = true ∧ 0 < stDemo.pwmRange ∧
    ((setRaw { R := 3/10, G := 7/10, B := 6/5 } stDemo).2 =
       [(Chan.red, pwmOf stDemo.pwmRange (3/10)), (Chan.green, pwmOf stDemo.pwmRange (7/10)),
        (Chan.blue, pwmOf stDemo.pwmRange (6/5))] ∧
     (setOnOff false (setRaw { R := 3/10, G := 7/10, B := 6/5 } stDemo).1).2 =
       [(Chan.red, 0), (Chan.green, 0), (Chan.blue, 0)] ∧
     (setOnOff false (setRaw { R := 3/10, G := 7/10, B := 6/5 } stDemo).1).1.raw =
       (setRaw { R := 3/10, G := 7/10, B := 6/5 } stDemo).1.raw ∧
     (setOnOff true (setOnOff false (setRaw { R := 3/10, G := 7/10, B := 6/5 } stDemo).1).1).2 =
       (setRaw { R := 3/10, G := 7/10, B := 6/5 } stDemo).2 ∧
     (setOnOff true (setOnOff false (setRaw { R := 3/10, G := 7/10, B := 6/5 } stDemo).1).1).1.raw =
       (setRaw { R := 3/10, G := 7/10, B := 6/5 } stDemo).1.raw) :=
  ⟨rfl, by norm_num [stDemo],
   power_cycle_preserves_duty_cycles { R := 3/10, G := 7/10, B := 6/5 } stDemo rfl
     (by norm_num [stDemo])⟩

theorem runningMax_eq_max (a b c : ℚ) : runningMax a b c = max (max a b) c := by
  simp only [runningMax]
  split_ifs <;> rw [max_def, max_def] <;> split_ifs <;> linarith

theorem scaledMax_eq_max (sqrtm : ℚ → ℚ) (t : Luv) (st : EngineState) :
    scaledMax sqrtm t st =
      max (max (scaledRaw sqrtm t st).R (scaledRaw sqrtm t st).G) (scaledRaw sqrtm t st).B := by
  rw [show scaledMax sqrtm t st =
        runningMax (scaledRaw sqrtm t st).R (scaledRaw sqrtm t st).G (scaledRaw sqrtm t st).B
      from rfl, runningMax_eq_max]

/-- Claim C7: after `setCie1976Ucs` no stored raw channel exceeds 1, and
whenever the luma-scaled solver output exceeds unit power on some channel
(`scaledMax > 1`), the maximum stored channel equals exactly 1: the gamut
clamp rescales all three channels by `1/max`. -/
theorem setCie1976Ucs_gamut_clamp (sqrtm : ℚ → ℚ) (t : Luv) (st : EngineState)
    (hN : 0 < st.pwmRange) :
    ((setCie1976Ucs sqrtm t st).1.raw.R ≤ 1 ∧
     (setCie1976Ucs sqrtm t st).1.raw.G ≤ 1 ∧
     (setCie1976Ucs sqrtm t st).1.raw.B ≤ 1) ∧
    (1 < scaledMax sqrtm t st →
      runningMax (setCie1976Ucs sqrtm t st).1.raw.R (setCie1976Ucs sqrtm t st).1.raw.G
        (setCie1976Ucs sqrtm t st).1.raw.B = 1) := by
  constructor
  · rw [setCie1976Ucs_fst_raw]
    exact ⟨quant_le_one hN _, quant_le_one hN _, quant_le_one hN _⟩
  · intro hm
    have hm0 : scaledMax sqrtm t st ≠ 0 := by
      have : (0 : ℚ) < scaledMax sqrtm t st := lt_trans zero_lt_one hm
      exact ne_of_gt this
    have hclamp : clampedRaw sqrtm t st =
        { R := (scaledRaw sqrtm t st).R * (1 / scaledMax sqrtm t st)
          G := (scaledRaw sqrtm t st).G * (1 / scaledMax sqrtm t st)
          B := (scaledRaw sqrtm t st).B * (1 / scaledMax sqrtm t st) } := by
      simp only [clampedRaw]
      rw [if_pos hm]
      norm_num
    have hcases : scaledMax sqrtm t st = (scaledRaw sqrtm t st).R ∨
        scaledMax sqrtm t st = (scaledRaw sqrtm t st).G ∨
        scaledMax sqrtm t st = (scaledRaw sqrtm t st).B := by
      rw [scaledMax_eq_max]
      rcases max_choice (max (scaledRaw sqrtm t st).R (scaledRaw sqrtm t st).G)
          (scaledRaw sqrtm t st).B with h1 | h1
      · rcases max_choice (scaledRaw sqrtm t st).R (scaledRaw sqrtm t st).G with h2 | h2
        · left; rw [h1, h2]
        · right; left; rw [h1, h2]
      · right; right; exact h1
    have hone : ∀ y : ℚ, y = scaledMax sqrtm t st →
        quant st.pwmRange (y * (1 / scaledMax sqrtm t st)) = 1 := by
      intro y hy
      rw [hy, mul_one_div, div_self hm0]
      exact quant_one hN
    rw [setCie1976Ucs_fst_raw, hclamp, runningMax_eq_max]
    have hub : ∀ y : ℚ, quant st.pwmRange y ≤ 1 := quant_le_one hN
    rcases hcases with h | h | h
    · exact le_antisymm (max_le (max_le (hub _) (hub _)) (hub _))
        (le_trans (le_of_eq (hone _ h.symm).symm)
          (le_trans (le_max_left _ _) (le_max_left _ _)))
    · exact le_antisymm (max_le (max_le (hub _) (hub _)) (hub _))
        (le_trans (le_of_eq (hone _ h.symm).symm)
          (le_trans (le_max_right _ _) (le_max_left _ _)))
    · exact le_antisymm (max_le (max_le (hub _) (hub _)) (hub _))
        (le_trans (le_of_eq (hone _ h.symm).symm) (le_max_right _ _))

set_option maxHeartbeats 1000000 in
theorem setCie1976Ucs_gamut_clamp_witness :
    0 < stDemo.pwmRange ∧
    1 < scaledMax sqrtZero { L := 100, u := 0, v := 0 } stDemo ∧
    runningMax (setCie1976Ucs sqrtZero { L := 100, u := 0, v := 0 } stDemo).1.raw.R
      (setCie1976Ucs sqrtZero { L := 100, u := 0, v := 0 } stDemo).1.raw.G
      (setCie1976Ucs sqrtZero { L := 100, u := 0, v := 0 } stDemo).1.raw.B = 1 := by
  have hN : 0 < stDemo.pwmRange := by norm_num [stDemo]
  have hs : 1 < scaledMax sqrtZero { L := 100, u := 0, v := 0 } stDemo := by
    norm_num [scaledMax, scaledRaw, rawSolve, findCoefficient_, lumaY, targetLuma,
      runningMax, stDemo, fitA, sqrtZero]
  exact ⟨hN, hs,
    (setCie1976Ucs_gamut_clamp sqrtZero { L := 100, u := 0, v := 0 } stDemo hN).2 hs⟩

/-- Claim C2 (counterexample): the state reached immediately after a direct
`setRaw` call holds the unset sentinels in both perceptual caches
(`luv_ = {-1,-1,-1}` and `T_ = 65535`, the stored `uint16_t` image of `-1`),
yet `calibrate` on that state does write PWM output: because the validity
test `T_ >= 1000` accepts the sentinel 65535, calibrate re-solves through the
temperature path instead of leaving the raw state untouched. -/
theorem calibrate_after_setRaw_writes_pwm :
    stAfterSetRaw.luv = { L := -1, u := -1, v := -1 } ∧
    stAfterSetRaw.T = 65535 ∧
    (calibrate sqrtZero calibZero stAfterSetRaw).2 ≠ [] ∧
    (calibrate sqrtZero calibZero stAfterSetRaw).1.raw ≠ stAfterSetRaw.raw := by
  refine ⟨rfl, by norm_num [stAfterSetRaw, setRaw, stDemo, u16_neg_one], ?_, ?_⟩ <;>
    · norm_num [calibrate, storeCalib, stAfterSetRaw, stDemo, setColorTemperature,
        setCie1976Ucs, setRaw, clampedRaw, scaledMax, scaledRaw, rawSolve,
        findCoefficient_, lumaY, targetLuma, runningMax, ctTargetLuv, chromaticityU,
        chromaticityV, zscore, quant, pwmOf, cTrunc, clamp01, u16, calibZero, fitA,
        sqrtZero, getRaw, List.cons_ne_nil]

/-- Claim C2 (amended): when both validity tests used by `calibrate` fail
(`T_ < 1000` and `luv_.L < 0`), `calibrate` replaces the calibration fields,
performs no re-solve, writes no PWM output, and leaves the raw state
unchanged.  (Immediately after a direct `setRaw` call this precondition does
NOT hold, because `T_` then equals 65535.) -/
theorem calibrate_no_resolve_when_both_invalid (sqrtm : ℚ → ℚ) (c : CalibArgs)
    (st : EngineState) (hT : st.T < 1000) (hL : st.luv.L < 0) :
    calibrate sqrtm c st = (storeCalib c st, []) ∧ (storeCalib c st).raw = st.raw := by
  constructor
  · have hT' : (storeCalib c st).T = st.T := rfl
    have hL' : (storeCalib c st).luv = st.luv := rfl
    simp only [calibrate]
    rw [if_neg (by rw [hT']; omega), if_neg (by rw [hL']; exact not_le.mpr hL)]
  · rfl

theorem calibrate_no_resolve_when_both_invalid_witness :
    stInvalid.T < 1000 ∧ stInvalid.luv.L < 0 ∧
    (calibrate sqrtZero calibDefault stInvalid = (storeCalib calibDefault stInvalid, []) ∧
     (storeCalib calibDefault stInvalid).raw = stInvalid.raw) :=
  ⟨by norm_num [stInvalid, stDemo], by norm_num [stInvalid, stDemo],
   calibrate_no_resolve_when_both_invalid sqrtZero calibDefault stInvalid
     (by norm_num [stInvalid, stDemo]) (by norm_num [stInvalid, stDemo])⟩

/-- Claim C1 (code-bug evidence): after `setColorTemperature(50, 3000)` the
cached lightness is the sentinel `-1` (the internal `setRaw` reset `luv_` and
only `T_` was restored), so a subsequent `calibrate` re-solves as
`setColorTemperature(-1, 3000)` on the updated calibration — the luma target
used by the re-solve is `targetLuma (-1)`, not the `targetLuma 50` that the
original request carried, so the visible lightness does not survive
recalibration. -/
theorem calibrate_loses_requested_lightness (sqrtm : ℚ → ℚ) :
    (setColorTemperature sqrtm 50 3000 stDemo).1.luv = { L := -1, u := -1, v := -1 } ∧
    calibrate sqrtm calibDefault (setColorTemperature sqrtm 50 3000 stDemo).1 =
      setColorTemperature sqrtm (-1) 3000
        (storeCalib calibDefault (setColorTemperature sqrtm 50 3000 stDemo).1) ∧
    targetLuma (-1) ≠ targetLuma 50 := by
  refine ⟨rfl, ?_, by norm_num [targetLuma]⟩
  have h1 : (storeCalib calibDefault (setColorTemperature sqrtm 50 3000 stDemo).1).T = 3000 := rfl
  simp only [calibrate]
  rw [if_pos (show 1000 ≤ (storeCalib calibDefault (setColorTemperature sqrtm 50 3000 stDemo).1).T by
    rw [h1]; norm_num)]
  have h2 : (storeCalib calibDefault (setColorTemperature sqrtm 50 3000 stDemo).1).luv.L = -1 := rfl
  rw [h1, h2]


theorem ctUNum_natDegree : ctUNum.natDegree = 3 := by
  unfold ctUNum; compute_degree!

theorem ctVNum_natDegree : ctVNum.natDegree = 4 := by
  unfold ctVNum; compute_degree!

theorem ctUDen_natDegree : ctUDen.natDegree = 2 := by
  unfold ctUDen; compute_degree!

theorem ctVDen_natDegree : ctVDen.natDegree = 2 := by
  unfold ctVDen; compute_degree!

theorem chromaticityU_eq_eval (T : ℕ) :
    chromaticityU T = ctUNum.eval (zscore T) / ctUDen.eval (zscore T) := by
  simp only [chromaticityU, ctUNum, ctUDen, Polynomial.eval_add, Polynomial.eval_mul,
    Polynomial.eval_pow, Polynomial.eval_C, Polynomial.eval_X]
  congr 1 <;> ring

theorem chromaticityV_eq_eval (T : ℕ) :
    chromaticityV T = ctVNum.eval (zscore T) / ctVDen.eval (zscore T) := by
  simp only [chromaticityV, ctVNum, ctVDen, Polynomial.eval_add, Polynomial.eval_mul,
    Polynomial.eval_pow, Polynomial.eval_C, Polynomial.eval_X]
  congr 1 <;> ring

/-- Claim C10 (counterexample): the u-chromaticity numerator used by
`setColorTemperature` is a cubic, not a quartic: its natural degree is 3,
its x^4 coefficient is 0, and it is the numerator actually evaluated by the
code (shown at the concrete input T = 8099, where the z-score is 1). -/
theorem ct_u_numerator_is_cubic :
    ctUNum.natDegree = 3 ∧ ctUNum.natDegree ≠ 4 ∧ ctUNum.coeff 4 = 0 ∧
    zscore 8099 = 1 ∧
    chromaticityU 8099 = ctUNum.eval (zscore 8099) / ctUDen.eval (zscore 8099) := by
  refine ⟨ctUNum_natDegree, ?_, ?_, by norm_num [zscore], chromaticityU_eq_eval 8099⟩
  · rw [ctUNum_natDegree]; norm_num
  · exact Polynomial.coeff_eq_zero_of_natDegree_lt (by rw [ctUNum_natDegree]; norm_num)

/-- Claim C10 (amended): `setColorTemperature` transforms T to the z-score
`x = (T - 5500) / 2599` and computes (u, v) as rational functions of x whose
denominators are quadratic with distinct coefficient sets; the u numerator is
a cubic (degree 3) while the v numerator is a quartic (degree 4), with
distinct coefficient sets for u and v. -/
theorem ct_rational_fit_shape (T : ℕ) :
    zscore T = ((T : ℚ) - 5500) / 2599 ∧
    chromaticityU T = ctUNum.eval (zscore T) / ctUDen.eval (zscore T) ∧
    chromaticityV T = ctVNum.eval (zscore T) / ctVDen.eval (zscore T) ∧
    ctUNum.natDegree = 3 ∧ ctVNum.natDegree = 4 ∧
    ctUDen.natDegree = 2 ∧ ctVDen.natDegree = 2 ∧
    ctUNum ≠ ctVNum ∧ ctUDen ≠ ctVDen := by
  refine ⟨by norm_num [zscore], chromaticityU_eq_eval T, chromaticityV_eq_eval T,
    ctUNum_natDegree, ctVNum_natDegree, ctUDen_natDegree, ctVDen_natDegree, ?_, ?_⟩
  · intro h
    have hd := congrArg Polynomial.natDegree h
    rw [ctUNum_natDegree, ctVNum_natDegree] at hd
    norm_num at hd
  · intro h
    have he := congrArg (Polynomial.eval 0) h
    simp only [ctUDen, ctVDen, Polynomial.eval_add, Polynomial.eval_mul,
      Polynomial.eval_pow, Polynomial.eval_C, Polynomial.eval_X] at he
    norm_num at he

end LedEngine
